import Mathlib

/-!
# Verification of the PiDrone state-estimation node

Shallow embedding of `scripts/state_estimation.py` (class `StateEstimation`):
the geometric transform (`apply_rotation_matrix`), the process model
(`state_transition_function`), the per-sensor measurement functions, and the
fusion-scheduler callbacks (`update_input_time`, `ukf_predict`,
`imu_data_callback`, `optical_flow_data_callback`, `ir_data_callback`).

Machine floats are modelled by real numbers.  The unscented estimator core
(the external `filterpy` library, not part of this repository) is modelled
from the specification where the claims need it: Merwe scaled sigma points
with the configured spread parameters, unscented recombination, and the
standard unscented correction.  The Cholesky square root used to generate
sigma points is kept as an explicit parameter `chol`, since no claim depends
on its value.

A Python attribute that starts out as `None` is modelled by an `Option`;
a callback that raises (Python `TypeError` from `float - None`) is modelled
by `Except Est Est`, where the `error` payload is the object state at the
moment of the raise (mutations made before the raise persist).
-/

namespace PiDrone

open Real Matrix

section VecNotationHelpers

variable {α : Type*} {m : ℕ}

/-- Evaluation of a `vecCons` vector at the literal index 5 (Mathlib stops
at `cons_val_four`; the 12-dimensional state needs indices up to 11). -/
@[simp]
lemma cons_val_five (x : α) (u : Fin (m + 5) → α) :
    vecCons x u 5 = vecHead (vecTail (vecTail (vecTail (vecTail u)))) :=
  rfl

/-- Evaluation of a `vecCons` vector at the literal index 6. -/
@[simp]
lemma cons_val_six (x : α) (u : Fin (m + 6) → α) :
    vecCons x u 6 = vecHead (vecTail (vecTail (vecTail (vecTail (vecTail u))))) :=
  rfl

/-- Evaluation of a `vecCons` vector at the literal index 7. -/
@[simp]
lemma cons_val_seven (x : α) (u : Fin (m + 7) → α) :
    vecCons x u 7
      = vecHead (vecTail (vecTail (vecTail (vecTail (vecTail (vecTail u)))))) :=
  rfl

/-- Evaluation of a `vecCons` vector at the literal index 8. -/
@[simp]
lemma cons_val_eight (x : α) (u : Fin (m + 8) → α) :
    vecCons x u 8
      = vecHead (vecTail (vecTail (vecTail (vecTail (vecTail (vecTail (vecTail u))))))) :=
  rfl

/-- Evaluation of a `vecCons` vector at the literal index 9. -/
@[simp]
lemma cons_val_nine (x : α) (u : Fin (m + 9) → α) :
    vecCons x u 9
      = vecHead
          (vecTail (vecTail (vecTail (vecTail (vecTail (vecTail (vecTail (vecTail u)))))))) :=
  rfl

/-- Evaluation of a `vecCons` vector at the literal index 10. -/
@[simp]
lemma cons_val_ten (x : α) (u : Fin (m + 10) → α) :
    vecCons x u 10
      = vecHead
          (vecTail
            (vecTail (vecTail (vecTail (vecTail (vecTail (vecTail (vecTail (vecTail u))))))))) :=
  rfl

/-- Evaluation of a `vecCons` vector at the literal index 11. -/
@[simp]
lemma cons_val_eleven (x : α) (u : Fin (m + 11) → α) :
    vecCons x u 11
      = vecHead
          (vecTail
            (vecTail
              (vecTail
                (vecTail (vecTail (vecTail (vecTail (vecTail (vecTail (vecTail u)))))))))) :=
  rfl

end VecNotationHelpers

/-- The 12-dimensional UKF state vector:
`[x, y, z, x_vel, y_vel, z_vel, roll, pitch, yaw, roll_vel, pitch_vel, yaw_vel]`. -/
abbrev StateVec : Type := Fin 12 → ℝ

/-- 12×12 real matrices (state covariance, process noise, transition matrix). -/
abbrev Mat12 : Type := Matrix (Fin 12) (Fin 12) ℝ

/-- `np.deg2rad`: degrees to radians. -/
noncomputable def deg2rad (d : ℝ) : ℝ := d * (Real.pi / 180)

/-- The matrix literally written in `apply_rotation_matrix`
(source lines 293–302), as a function of the roll/pitch/yaw angles in
degrees.  `phi` is roll, `theta` is pitch, `psi` is yaw, each converted to
radians first. -/
noncomputable def rotation_matrix (roll pitch yaw : ℝ) : Matrix (Fin 3) (Fin 3) ℝ :=
  let phi := deg2rad roll
  let theta := deg2rad pitch
  let psi := deg2rad yaw
  ![![Real.cos theta * Real.cos psi,
      Real.sin phi * Real.sin theta * Real.cos psi - Real.cos phi * Real.sin psi,
      Real.cos phi * Real.sin theta * Real.cos psi + Real.sin phi * Real.sin psi],
    ![Real.cos theta * Real.sin psi,
      Real.sin phi * Real.sin theta * Real.sin psi + Real.cos phi * Real.cos psi,
      Real.cos theta * Real.sin phi],
    ![-Real.sin theta,
      Real.cos theta * Real.sin phi,
      Real.cos theta * Real.cos phi]]

/-- `apply_rotation_matrix(self, original_matrix)`: reads roll/pitch/yaw from
the stored filter mean `self.ukf.x` (components 6, 7, 8), builds
`rotation_matrix`, and applies it to the given 3-vector. -/
noncomputable def apply_rotation_matrix (ukfx : StateVec) (v : Fin 3 → ℝ) : Fin 3 → ℝ :=
  (rotation_matrix (ukfx 6) (ukfx 7) (ukfx 8)).mulVec v

/-- Elementary rotation about the x-axis (spec-side definition, following the
spec's words for the claim that the geometric transform is
`rotation_z(yaw) · rotation_y(pitch) · rotation_x(roll)`). -/
noncomputable def rotX (a : ℝ) : Matrix (Fin 3) (Fin 3) ℝ :=
  ![![1, 0, 0],
    ![0, Real.cos a, -Real.sin a],
    ![0, Real.sin a, Real.cos a]]

/-- Elementary rotation about the y-axis (spec-side definition). -/
noncomputable def rotY (a : ℝ) : Matrix (Fin 3) (Fin 3) ℝ :=
  ![![Real.cos a, 0, Real.sin a],
    ![0, 1, 0],
    ![-Real.sin a, 0, Real.cos a]]

/-- Elementary rotation about the z-axis (spec-side definition). -/
noncomputable def rotZ (a : ℝ) : Matrix (Fin 3) (Fin 3) ℝ :=
  ![![Real.cos a, -Real.sin a, 0],
    ![Real.sin a, Real.cos a, 0],
    ![0, 0, 1]]

/-- The body-to-global rotation the spec prescribes:
`rotation_z(yaw) · rotation_y(pitch) · rotation_x(roll)`, angles in degrees
converted to radians. -/
noncomputable def spec_rotation_zyx (roll pitch yaw : ℝ) : Matrix (Fin 3) (Fin 3) ℝ :=
  rotZ (deg2rad yaw) * rotY (deg2rad pitch) * rotX (deg2rad roll)

/-- The transition matrix `F` built in `state_transition_function`
(source lines 314–320): `np.eye(12)` with `dt` at entries
(0,3), (1,4), (2,5), (6,9), (7,10), (8,11). -/
def transitionMatrix (dt : ℝ) : Mat12 :=
  ![![1, 0, 0, dt, 0, 0, 0, 0, 0, 0, 0, 0],
    ![0, 1, 0, 0, dt, 0, 0, 0, 0, 0, 0, 0],
    ![0, 0, 1, 0, 0, dt, 0, 0, 0, 0, 0, 0],
    ![0, 0, 0, 1, 0, 0, 0, 0, 0, 0, 0, 0],
    ![0, 0, 0, 0, 1, 0, 0, 0, 0, 0, 0, 0],
    ![0, 0, 0, 0, 0, 1, 0, 0, 0, 0, 0, 0],
    ![0, 0, 0, 0, 0, 0, 1, 0, 0, dt, 0, 0],
    ![0, 0, 0, 0, 0, 0, 0, 1, 0, 0, dt, 0],
    ![0, 0, 0, 0, 0, 0, 0, 0, 1, 0, 0, dt],
    ![0, 0, 0, 0, 0, 0, 0, 0, 0, 1, 0, 0],
    ![0, 0, 0, 0, 0, 0, 0, 0, 0, 0, 1, 0],
    ![0, 0, 0, 0, 0, 0, 0, 0, 0, 0, 0, 1]]

/-- `change_from_control_input` (source lines 322–336): the control input `u`
is rotated by `apply_rotation_matrix` — which reads the STORED mean `ukfx`,
not the state being propagated — multiplied by `dt`, and placed at the
linear-velocity components 3, 4, 5. -/
noncomputable def change_from_control_input (ukfx : StateVec) (dt : ℝ)
    (u : Fin 3 → ℝ) : StateVec :=
  ![0, 0, 0,
    apply_rotation_matrix ukfx u 0 * dt,
    apply_rotation_matrix ukfx u 1 * dt,
    apply_rotation_matrix ukfx u 2 * dt,
    0, 0, 0, 0, 0, 0]

/-- `state_transition_function(self, x, dt, u)` (source lines 306–338):
`np.dot(F, x) + change_from_control_input`.  The first argument is the
stored filter mean `self.ukf.x` that the method reads through
`apply_rotation_matrix`. -/
noncomputable def state_transition_function (ukfx x : StateVec) (dt : ℝ)
    (u : Fin 3 → ℝ) : StateVec :=
  (transitionMatrix dt).mulVec x + change_from_control_input ukfx dt u

/-- `measurement_function_rpy` (source lines 400–411): `H·x` with `H`
selecting components 6, 7, 8. -/
def measurement_function_rpy (x : StateVec) : Fin 3 → ℝ :=
  Matrix.mulVec
    (![![0, 0, 0, 0, 0, 0, 1, 0, 0, 0, 0, 0],
       ![0, 0, 0, 0, 0, 0, 0, 1, 0, 0, 0, 0],
       ![0, 0, 0, 0, 0, 0, 0, 0, 1, 0, 0, 0]] : Matrix (Fin 3) (Fin 12) ℝ) x

/-- `measurement_function_optical_flow` (source lines 387–398): `H·x` with
`H` selecting components 3, 4, 11. -/
def measurement_function_optical_flow (x : StateVec) : Fin 3 → ℝ :=
  Matrix.mulVec
    (![![0, 0, 0, 1, 0, 0, 0, 0, 0, 0, 0, 0],
       ![0, 0, 0, 0, 1, 0, 0, 0, 0, 0, 0, 0],
       ![0, 0, 0, 0, 0, 0, 0, 0, 0, 0, 0, 1]] : Matrix (Fin 3) (Fin 12) ℝ) x

/-- `measurement_function_ir` (source lines 368–385): roll and pitch are read
from the state argument `x` (components 6 and 7), converted to radians, and
`H = [[0, 0, 1/(cos θ · cos φ), 0, …, 0]]` is applied to `x`. -/
noncomputable def measurement_function_ir (x : StateVec) : Fin 1 → ℝ :=
  let phi := deg2rad (x 6)
  let theta := deg2rad (x 7)
  let alt_to_r := 1 / (Real.cos theta * Real.cos phi)
  Matrix.mulVec
    (![![0, 0, alt_to_r, 0, 0, 0, 0, 0, 0, 0, 0, 0]] : Matrix (Fin 1) (Fin 12) ℝ) x

/-! ## Unscented estimator core

Modelled from the spec: the estimator core is provided by the external
`filterpy` library, which is not part of this repository.  §4.1 of the spec
describes it: a deterministic set of `2n+1 = 25` Merwe scaled sigma points is
generated from the mean and covariance with spread parameters
`α = 0.1, β = 2, κ = 0` (source lines 97–100), every sigma point is
propagated through the process model, and the propagated points are
recombined with the fixed unscented weights.  With `n = 12` the scaling
constant is `λ = α²(n+κ) − n = −11.88`, giving the exact mean weights
`Wm 0 = λ/(n+λ) = −99` and `Wm j = 1/(2(n+λ)) = 25/6` for `j ≠ 0`, and
covariance weights `Wc 0 = Wm 0 + (1 − α² + β) = −96.01`, `Wc j = 25/6`.
The matrix square root used to spread the points (a Cholesky factor of
`(n+λ)·P`) is kept as an explicit parameter `S` (its rows), since no claim
depends on its value. -/

/-- Modelled from the spec: the unscented mean weights for
`n = 12, α = 0.1, β = 2, κ = 0`. -/
noncomputable def Wm : Fin 25 → ℝ := fun j => if j = 0 then -99 else 25 / 6

/-- Modelled from the spec: the unscented covariance weights for
`n = 12, α = 0.1, β = 2, κ = 0`. -/
noncomputable def Wc : Fin 25 → ℝ := fun j => if j = 0 then -(9601 / 100) else 25 / 6

/-- Modelled from the spec: the 25 Merwe scaled sigma points spread around
the mean `x`; `S i` is row `i` of the scaled matrix square root of the
covariance. -/
def merwePoints (x : StateVec) (S : Fin 12 → StateVec) : Fin 25 → StateVec :=
  ![x,
    x + S 0, x + S 1, x + S 2, x + S 3, x + S 4, x + S 5,
    x + S 6, x + S 7, x + S 8, x + S 9, x + S 10, x + S 11,
    x - S 0, x - S 1, x - S 2, x - S 3, x - S 4, x - S 5,
    x - S 6, x - S 7, x - S 8, x - S 9, x - S 10, x - S 11]

/-- Modelled from the spec: unscented recombination of 25 points into a
mean. -/
noncomputable def utMean (pts : Fin 25 → StateVec) : StateVec :=
  fun i => ∑ j : Fin 25, Wm j * pts j i

/-- Modelled from the spec: unscented recombination of 25 points into a
covariance around the mean `m`. -/
noncomputable def utCovP (pts : Fin 25 → StateVec) (m : StateVec) : Mat12 :=
  Matrix.of fun i k => ∑ j : Fin 25, Wc j * ((pts j i - m i) * (pts j k - m k))

/-- The initial state covariance `self.ukf.P` (source line 121). -/
noncomputable def P0 : Mat12 :=
  Matrix.diagonal ![0.1, 0.1, 0.1, 0.2, 0.2, 0.2, 1, 1, 1, 1, 1, 1]

/-- The process noise covariance `self.ukf.Q = np.eye(12)*0.001`
(source line 129). -/
noncomputable def Qmat : Mat12 := (0.001 : ℝ) • (1 : Mat12)

/-- The IR slant-range measurement covariance (source line 137). -/
noncomputable def measurement_cov_ir : Matrix (Fin 1) (Fin 1) ℝ := ![![0.1]]

/-- The optical-flow measurement covariance (source line 139). -/
noncomputable def measurement_cov_optical_flow : Matrix (Fin 3) (Fin 3) ℝ :=
  Matrix.diagonal ![0.1, 0.1, 0.1]

/-- The roll-pitch-yaw measurement covariance (source line 141). -/
noncomputable def measurement_cov_rpy : Matrix (Fin 3) (Fin 3) ℝ :=
  Matrix.diagonal ![0.1, 0.1, 0.1]

/-! ## The `StateEstimation` object and the fusion scheduler -/

/-- The mutable attributes of the `StateEstimation` object (together with
the filter's mean `self.ukf.x` and covariance `self.ukf.P`).  Attributes
that are `None` until first assigned (`last_state_transition_time`,
`self.dt`) and attributes that do not exist until first assigned
(`last_time_secs`, `last_time_nsecs`) are `Option`s. -/
structure Est where
  ukf_x : StateVec
  ukf_P : Mat12
  last_state_transition_time : Option ℝ
  dt : Option ℝ
  computed_first_prior : Bool
  last_control_input : Fin 3 → ℝ
  last_time_secs : Option ℝ
  last_time_nsecs : Option ℝ

/-- The object state after `__init__` (source lines 28–46): FilterPy
initializes the state vector with zeros (source comment at line 69), the
covariances are set by `initialize_ukf_matrices`, no timestamp exists yet,
no prior has been computed, and the last control input is `[0, 0, 0]`. -/
noncomputable def Est.init : Est :=
  { ukf_x := fun _ => 0
    ukf_P := P0
    last_state_transition_time := none
    dt := none
    computed_first_prior := false
    last_control_input := fun _ => 0
    last_time_secs := none
    last_time_nsecs := none }

/-- `update_input_time(self, msg)` (source lines 143–159).  Stores the
header seconds and nanoseconds, then computes
`self.dt = new_time - self.last_state_transition_time`.  On the very first
call `last_state_transition_time` is `None`, so the subtraction raises a
`TypeError` (Python 2 `float - NoneType`): modelled by `Except.error`
carrying the object state at the moment of the raise — the secs/nsecs
assignments made before the raise persist, and the fusion timestamp is
never recorded. -/
def update_input_time (s : Est) (secs nsecs : ℝ) : Except Est Est :=
  let s1 : Est := { s with last_time_secs := some secs, last_time_nsecs := some nsecs }
  let newTime : ℝ := secs + nsecs * 1e-9
  match s.last_state_transition_time with
  | none => Except.error s1
  | some t =>
      Except.ok { s1 with
        dt := some (newTime - t)
        last_state_transition_time := some newTime }

/-- `ukf_predict(self)` (source lines 161–167): calls
`self.ukf.predict(dt=self.dt, u=self.last_control_input)` — with NO check
on the sign or finiteness of `self.dt` — and then sets
`computed_first_prior = True`.  The filterpy prediction is modelled from
the spec: sigma points from the current mean and covariance, each
propagated through the process model (which reads the stored mean
`self.ukf.x` for its rotation), recombined into the new mean and
covariance, plus process noise.  `chol` provides the rows of the scaled
covariance square root.  If `self.dt` were still `None` the call would
raise; that path is unreachable from the callbacks. -/
noncomputable def ukf_predict (chol : Mat12 → Fin 12 → StateVec) (s : Est) :
    Except Est Est :=
  match s.dt with
  | none => Except.error s
  | some d =>
      let pts := merwePoints s.ukf_x (chol s.ukf_P)
      let fpts := fun j => state_transition_function s.ukf_x (pts j) d s.last_control_input
      let m := utMean fpts
      Except.ok { s with
        ukf_x := m
        ukf_P := utCovP fpts m + Qmat
        computed_first_prior := true }

/-- Modelled from the spec: `self.ukf.update(z, hx=…, R=…)` — the unscented
correction (§4.1 of the spec): sigma points regenerated from the prior are
mapped through the observation function `hx`, giving the predicted
measurement mean, the measurement covariance (plus `R`), and the
state–measurement cross covariance; the Kalman gain corrects the mean with
the innovation `z − ẑ` and shrinks the covariance.  It touches only
`ukf_x` and `ukf_P`. -/
noncomputable def ukf_update {mdim : ℕ} (chol : Mat12 → Fin 12 → StateVec)
    (hx : StateVec → Fin mdim → ℝ) (R : Matrix (Fin mdim) (Fin mdim) ℝ)
    (z : Fin mdim → ℝ) (s : Est) : Est :=
  let pts := merwePoints s.ukf_x (chol s.ukf_P)
  let Zs := fun j => hx (pts j)
  let zhat := fun a => ∑ j : Fin 25, Wm j * Zs j a
  let Pz : Matrix (Fin mdim) (Fin mdim) ℝ :=
    Matrix.of (fun a b => ∑ j : Fin 25, Wc j * ((Zs j a - zhat a) * (Zs j b - zhat b))) + R
  let Pxz : Matrix (Fin 12) (Fin mdim) ℝ :=
    Matrix.of fun a b => ∑ j : Fin 25, Wc j * ((pts j a - s.ukf_x a) * (Zs j b - zhat b))
  let K := Pxz * Pz⁻¹
  { s with
    ukf_x := s.ukf_x + Matrix.mulVec K (fun a => z a - zhat a)
    ukf_P := s.ukf_P - K * Pz * K.transpose }

/-- An `Imu` message: header timestamp, linear acceleration, and the Euler
angles obtained from the attitude quaternion (the
`tf.transformations.euler_from_quaternion` conversion at source lines
185–192 happens at the transport boundary and is modelled by the message
carrying the resulting roll/pitch/yaw). -/
structure ImuMsg where
  secs : ℝ
  nsecs : ℝ
  accel : Fin 3 → ℝ
  roll : ℝ
  pitch : ℝ
  yaw : ℝ

/-- A `Mode` message from optical flow: header timestamp and x/y/yaw
velocities. -/
structure FlowMsg where
  secs : ℝ
  nsecs : ℝ
  x_velocity : ℝ
  y_velocity : ℝ
  yaw_velocity : ℝ

/-- A `Range` message from the IR sensor: header timestamp and slant
range. -/
structure RangeMsg where
  secs : ℝ
  nsecs : ℝ
  range : ℝ

/-- `imu_data_callback(self, data)` (source lines 169–198):
`update_input_time`; store the linear acceleration as the new control
input; `ukf_predict`; then a measurement update with the roll-pitch-yaw
observation model.  A raise inside `update_input_time` aborts the rest of
the callback. -/
noncomputable def imu_data_callback (chol : Mat12 → Fin 12 → StateVec) (s : Est)
    (msg : ImuMsg) : Except Est Est :=
  match update_input_time s msg.secs msg.nsecs with
  | Except.error s1 => Except.error s1
  | Except.ok s1 =>
      let s2 : Est := { s1 with last_control_input := msg.accel }
      match ukf_predict chol s2 with
      | Except.error s3 => Except.error s3
      | Except.ok s3 =>
          Except.ok (ukf_update chol measurement_function_rpy measurement_cov_rpy
            ![msg.roll, msg.pitch, msg.yaw] s3)

/-- `optical_flow_data_callback(self, data)` (source lines 200–223):
`update_input_time`; `ukf_predict` with the last-known control input
(which it does NOT modify); then a measurement update with the
optical-flow observation model. -/
noncomputable def optical_flow_data_callback (chol : Mat12 → Fin 12 → StateVec)
    (s : Est) (msg : FlowMsg) : Except Est Est :=
  match update_input_time s msg.secs msg.nsecs with
  | Except.error s1 => Except.error s1
  | Except.ok s1 =>
      match ukf_predict chol s1 with
      | Except.error s2 => Except.error s2
      | Except.ok s2 =>
          Except.ok (ukf_update chol measurement_function_optical_flow
            measurement_cov_optical_flow
            ![msg.x_velocity, msg.y_velocity, msg.yaw_velocity] s2)

/-- `ir_data_callback(self, data)` (source lines 225–240):
`update_input_time`; `ukf_predict` with the last-known control input; then
a measurement update with the slant-range observation model. -/
noncomputable def ir_data_callback (chol : Mat12 → Fin 12 → StateVec) (s : Est)
    (msg : RangeMsg) : Except Est Est :=
  match update_input_time s msg.secs msg.nsecs with
  | Except.error s1 => Except.error s1
  | Except.ok s1 =>
      match ukf_predict chol s1 with
      | Except.error s2 => Except.error s2
      | Except.ok s2 =>
          Except.ok (ukf_update chol measurement_function_ir measurement_cov_ir
            ![msg.range] s2)

/-- The object state after a callback returns normally (`ok`) or aborts with
a raise (`error`): in both cases the mutations already made persist on the
singleton `StateEstimation` object. -/
def runState (e : Except Est Est) : Est :=
  match e with
  | Except.ok s => s
  | Except.error s => s

/-- A concrete covariance-square-root provider used to evaluate the
scheduler at concrete inputs (the unscented prediction mean is independent
of it, by `predict_mean_eq`). -/
def cholZero : Mat12 → Fin 12 → StateVec := fun _ _ _ => 0

/-- A concrete estimator state with x-velocity 1 and a computed `dt` of
`-1` second (the sensor timestamp jumped backwards by one second since the
previous fusion step at time 10). -/
noncomputable def estC3 : Est :=
  { Est.init with
    ukf_x := ![0, 0, 0, 1, 0, 0, 0, 0, 0, 0, 0, 0]
    last_state_transition_time := some 10
    dt := some (-1) }

/-! ## Supporting lemmas -/

/-- 90 degrees is π/2 radians. -/
lemma deg2rad_ninety : deg2rad 90 = Real.pi / 2 := by
  unfold deg2rad; ring

/-- 0 degrees is 0 radians. -/
lemma deg2rad_zero : deg2rad 0 = 0 := by
  unfold deg2rad; ring

/-- The unscented mean weights sum to one. -/
lemma sum_Wm : ∑ j : Fin 25, Wm j = 1 := by
  simp [Wm, Fin.sum_univ_succ, Fin.succ_ne_zero]
  norm_num

/-- Unscented recombination of the Merwe sigma points recovers the mean they
were spread around: the `±S i` displacements cancel pairwise and the weights
sum to one. -/
lemma utMean_merwe (x : StateVec) (S : Fin 12 → StateVec) :
    utMean (merwePoints x S) = x := by
  funext i
  simp [utMean, merwePoints, Wm, Fin.sum_univ_succ, Fin.succ_ne_zero]
  ring

/-- Unscented recombination commutes with an affine map: recombining the
images `M·p + c` of the points equals `M` applied to the recombined mean
plus `c`, because the weights sum to one. -/
lemma utMean_affine (M : Mat12) (c : StateVec) (pts : Fin 25 → StateVec) :
    utMean (fun j => Matrix.mulVec M (pts j) + c)
      = Matrix.mulVec M (utMean pts) + c := by
  funext i
  simp only [utMean, Pi.add_apply, Matrix.mulVec, Matrix.dotProduct]
  have h1 : ∀ j : Fin 25,
      Wm j * ((∑ k : Fin 12, M i k * pts j k) + c i)
        = (∑ k : Fin 12, Wm j * (M i k * pts j k)) + Wm j * c i := by
    intro j
    rw [mul_add, Finset.mul_sum]
  rw [Finset.sum_congr rfl fun j _ => h1 j, Finset.sum_add_distrib,
    ← Finset.sum_mul, sum_Wm, one_mul, Finset.sum_comm]
  congr 1
  refine Finset.sum_congr rfl fun k _ => ?_
  rw [Finset.mul_sum]
  refine Finset.sum_congr rfl fun j _ => ?_
  ring

/-- The process model is affine in the propagated state, so the unscented
prediction mean collapses exactly to the process model applied to the
current mean, whatever the covariance square root is. -/
lemma predict_mean_eq (ukfx x : StateVec) (S : Fin 12 → StateVec) (dt : ℝ)
    (u : Fin 3 → ℝ) :
    utMean (fun j => state_transition_function ukfx (merwePoints x S j) dt u)
      = state_transition_function ukfx x dt u := by
  have h : (fun j => state_transition_function ukfx (merwePoints x S j) dt u)
      = fun j =>
        Matrix.mulVec (transitionMatrix dt) (merwePoints x S j)
          + change_from_control_input ukfx dt u := rfl
  rw [h, utMean_affine, utMean_merwe]
  rfl

/-- Componentwise form of the state transition: position rows pick up
`dt ×` the matching velocity, orientation rows pick up `dt ×` the matching
angular velocity, velocity rows pick up the rotated control input times
`dt`, and angular-velocity rows are passed through. -/
lemma state_transition_eq (ukfx x : StateVec) (dt : ℝ) (u : Fin 3 → ℝ) :
    state_transition_function ukfx x dt u
      = ![x 0 + dt * x 3, x 1 + dt * x 4, x 2 + dt * x 5,
          x 3 + apply_rotation_matrix ukfx u 0 * dt,
          x 4 + apply_rotation_matrix ukfx u 1 * dt,
          x 5 + apply_rotation_matrix ukfx u 2 * dt,
          x 6 + dt * x 9, x 7 + dt * x 10, x 8 + dt * x 11,
          x 9, x 10, x 11] := by
  funext i
  fin_cases i <;>
    simp [state_transition_function, transitionMatrix, change_from_control_input,
      Matrix.mulVec, Matrix.dotProduct, Fin.sum_univ_succ] <;>
    first
    | rfl
    | exact Or.inl rfl

/-- At `dt = 0` the state transition is the identity. -/
lemma stf_dt_zero (ukfx x : StateVec) (u : Fin 3 → ℝ) :
    state_transition_function ukfx x 0 u = x := by
  rw [state_transition_eq]
  funext i
  fin_cases i <;> simp

/-- On a non-first arrival, `update_input_time` succeeds: it stores the
header fields, computes `dt`, and advances the fusion timestamp — while the
mean, covariance, control input and prior flag are untouched. -/
lemma update_input_time_some (s : Est) (secs nsecs t : ℝ)
    (h : s.last_state_transition_time = some t) :
    update_input_time s secs nsecs = Except.ok
      { s with
        last_time_secs := some secs
        last_time_nsecs := some nsecs
        dt := some (secs + nsecs * 1e-9 - t)
        last_state_transition_time := some (secs + nsecs * 1e-9) } := by
  unfold update_input_time
  rw [h]

/-- On the first-ever arrival, `update_input_time` raises: the header
fields are stored, but the fusion timestamp and `dt` are not. -/
lemma update_input_time_none (s : Est) (secs nsecs : ℝ)
    (h : s.last_state_transition_time = none) :
    update_input_time s secs nsecs = Except.error
      { s with last_time_secs := some secs, last_time_nsecs := some nsecs } := by
  unfold update_input_time
  rw [h]

/-- When `dt` has been computed, `ukf_predict` performs the prediction
unconditionally (no sign check): it returns `ok`, overwrites the mean with
the process model applied to the current mean (by `predict_mean_eq`), and
sets the prior flag. -/
lemma ukf_predict_some (chol : Mat12 → Fin 12 → StateVec) (s : Est) (d : ℝ)
    (h : s.dt = some d) :
    ukf_predict chol s = Except.ok
      { s with
        ukf_x := state_transition_function s.ukf_x s.ukf_x d s.last_control_input
        ukf_P :=
          utCovP
            (fun j =>
              state_transition_function s.ukf_x
                (merwePoints s.ukf_x (chol s.ukf_P) j) d s.last_control_input)
            (state_transition_function s.ukf_x s.ukf_x d s.last_control_input) + Qmat
        computed_first_prior := true } := by
  unfold ukf_predict
  rw [h]
  simp only [predict_mean_eq]

/-! ## Claim theorems -/

/-- C1: the claim that `apply_rotation_matrix` equals
`rotation_z(yaw) · rotation_y(pitch) · rotation_x(roll)` is FALSE on the
code: at roll = 90°, pitch = 0°, yaw = 90° the coded matrix has entry
(1,2) equal to `cos(pitch)·sin(roll) = 1`, whereas the Z-Y-X product has
`sin(yaw)·sin(pitch)·cos(roll) − cos(yaw)·sin(roll) = 0` there — the
source transcribed entry (1,2) incorrectly (it duplicates entry (2,1)),
so the two matrices differ. -/
theorem C1_rotation_matrix_is_not_zyx :
    rotation_matrix 90 0 90 1 2 = 1 ∧
    spec_rotation_zyx 90 0 90 1 2 = 0 ∧
    rotation_matrix 90 0 90 ≠ spec_rotation_zyx 90 0 90 := by
  have hcode : rotation_matrix 90 0 90 1 2 = 1 := by
    simp [rotation_matrix, deg2rad_ninety, deg2rad_zero]
  have hspec : spec_rotation_zyx 90 0 90 1 2 = 0 := by
    simp [spec_rotation_zyx, rotX, rotY, rotZ, deg2rad_ninety, deg2rad_zero,
      Matrix.mul_apply, Fin.sum_univ_succ]
  refine ⟨hcode, hspec, fun h => ?_⟩
  have h10 : (1 : ℝ) = 0 :=
    hcode.symm.trans ((congrFun (congrFun h 1) 2).trans hspec)
  norm_num at h10

/-- C5: the state transition advances the position components by
velocity×dt, advances the orientation components by angular-velocity×dt,
displaces the linear-velocity components by the control input rotated by
the geometric transform and scaled by dt, passes the angular-velocity
components through, and its orientation and angular-velocity components do
not depend on the control input. -/
theorem C5_state_transition_structure (ukfx x : StateVec) (dt : ℝ)
    (u v : Fin 3 → ℝ) :
    state_transition_function ukfx x dt u
      = ![x 0 + dt * x 3, x 1 + dt * x 4, x 2 + dt * x 5,
          x 3 + apply_rotation_matrix ukfx u 0 * dt,
          x 4 + apply_rotation_matrix ukfx u 1 * dt,
          x 5 + apply_rotation_matrix ukfx u 2 * dt,
          x 6 + dt * x 9, x 7 + dt * x 10, x 8 + dt * x 11,
          x 9, x 10, x 11] ∧
    state_transition_function ukfx x dt u 6 = state_transition_function ukfx x dt v 6 ∧
    state_transition_function ukfx x dt u 7 = state_transition_function ukfx x dt v 7 ∧
    state_transition_function ukfx x dt u 8 = state_transition_function ukfx x dt v 8 ∧
    state_transition_function ukfx x dt u 9 = state_transition_function ukfx x dt v 9 ∧
    state_transition_function ukfx x dt u 10 = state_transition_function ukfx x dt v 10 ∧
    state_transition_function ukfx x dt u 11 = state_transition_function ukfx x dt v 11 := by
  refine ⟨state_transition_eq ukfx x dt u, ?_, ?_, ?_, ?_, ?_, ?_⟩ <;>
    rw [state_transition_eq ukfx x dt u, state_transition_eq ukfx x dt v] <;>
    simp

/-- C6: the orientation observation function returns exactly state
components 6, 7, 8; the optical-flow observation function returns exactly
components 3, 4, 11; the slant-range observation function returns
component 2 divided by `cos(pitch)·cos(roll)`, where roll and pitch are
recomputed from components 6 and 7 of the state argument passed in at each
call (it is a pure function of those components, never a cached value). -/
theorem C6_measurement_functions (x y : StateVec)
    (h2 : x 2 = y 2) (h6 : x 6 = y 6) (h7 : x 7 = y 7) :
    measurement_function_rpy x = ![x 6, x 7, x 8] ∧
    measurement_function_optical_flow x = ![x 3, x 4, x 11] ∧
    measurement_function_ir x
      = ![x 2 / (Real.cos (deg2rad (x 7)) * Real.cos (deg2rad (x 6)))] ∧
    measurement_function_ir x = measurement_function_ir y := by
  have hir : ∀ z : StateVec, measurement_function_ir z
      = ![z 2 / (Real.cos (deg2rad (z 7)) * Real.cos (deg2rad (z 6)))] := by
    intro z
    funext i
    fin_cases i
    simp [measurement_function_ir, Matrix.mulVec, Matrix.dotProduct, Fin.sum_univ_succ]
    ring
  refine ⟨?_, ?_, hir x, ?_⟩
  · funext i
    fin_cases i <;>
      simp [measurement_function_rpy, Matrix.mulVec, Matrix.dotProduct,
        Fin.sum_univ_succ] <;>
      rfl
  · funext i
    fin_cases i <;>
      simp [measurement_function_optical_flow, Matrix.mulVec, Matrix.dotProduct,
        Fin.sum_univ_succ] <;>
      rfl
  · rw [hir x, hir y, h2, h6, h7]

/-- Witness for C6 at concrete states that agree on components 2, 6, 7 but
differ elsewhere. -/
theorem C6_measurement_functions_witness :
    measurement_function_rpy (fun _ => 1) = ![1, 1, 1] ∧
    measurement_function_optical_flow (fun _ => 1) = ![1, 1, 1] ∧
    measurement_function_ir (fun _ => 1)
      = ![1 / (Real.cos (deg2rad 1) * Real.cos (deg2rad 1))] ∧
    measurement_function_ir (fun _ => 1)
      = measurement_function_ir ![0, 0, 1, 0, 0, 0, 1, 1, 0, 0, 0, 0] := by
  have h := C6_measurement_functions (fun _ => 1)
    ![0, 0, 1, 0, 0, 0, 1, 1, 0, 0, 0, 0] (by norm_num) (by norm_num) (by norm_num)
  simpa using h

/-- C7: the control-input displacement added by the state transition is the
same for every propagated state (in particular for every sigma point,
whatever its own orientation components are), and it depends on the stored
mean only through its attitude components 6, 7 and 8 — it is the control
change computed from the STORED mean, not from the state being
propagated. -/
theorem C7_rotation_uses_stored_mean (dt : ℝ) (u : Fin 3 → ℝ)
    (ukfx ukfy x y : StateVec)
    (h6 : ukfx 6 = ukfy 6) (h7 : ukfx 7 = ukfy 7) (h8 : ukfx 8 = ukfy 8) :
    state_transition_function ukfx x dt u - Matrix.mulVec (transitionMatrix dt) x
      = state_transition_function ukfy y dt u - Matrix.mulVec (transitionMatrix dt) y ∧
    state_transition_function ukfx x dt u - Matrix.mulVec (transitionMatrix dt) x
      = change_from_control_input ukfx dt u := by
  have hc : ∀ (w : StateVec) (z : StateVec),
      state_transition_function w z dt u - Matrix.mulVec (transitionMatrix dt) z
        = change_from_control_input w dt u := by
    intro w z
    unfold state_transition_function
    exact add_sub_cancel_left _ _
  have hch : change_from_control_input ukfx dt u
      = change_from_control_input ukfy dt u := by
    unfold change_from_control_input apply_rotation_matrix
    rw [h6, h7, h8]
  refine ⟨?_, hc ukfx x⟩
  rw [hc ukfx x, hc ukfy y, hch]

/-- Witness for C7 at concrete stored means agreeing on attitude and two
different propagated states. -/
theorem C7_rotation_uses_stored_mean_witness :
    state_transition_function (fun _ => 0) (fun _ => 0) 1 (fun _ => 1)
        - Matrix.mulVec (transitionMatrix 1) (fun _ => 0)
      = state_transition_function ![2, 2, 2, 2, 2, 2, 0, 0, 0, 2, 2, 2] (fun _ => 5) 1
            (fun _ => 1)
        - Matrix.mulVec (transitionMatrix 1) (fun _ => 5) := by
  have h := C7_rotation_uses_stored_mean 1 (fun _ => 1) (fun _ => 0)
    ![2, 2, 2, 2, 2, 2, 0, 0, 0, 2, 2, 2] (fun _ => 0) (fun _ => 5)
    (by norm_num) (by norm_num) (by norm_num)
  exact h.1

/-- C8: at `dt = 0` the state transition returns the state unchanged, and
consequently the unscented prediction mean at `dt = 0` equals the current
mean (for every covariance square root). -/
theorem C8_predict_dt_zero_identity (ukfx x : StateVec) (u : Fin 3 → ℝ)
    (S : Fin 12 → StateVec) :
    state_transition_function ukfx x 0 u = x ∧
    utMean (fun j => state_transition_function ukfx (merwePoints x S j) 0 u) = x := by
  refine ⟨stf_dt_zero ukfx x u, ?_⟩
  rw [predict_mean_eq, stf_dt_zero]

/-- C2: the claim that the first-ever sensor arrival records the fusion
timestamp and returns without error is FALSE on the code: on the very first
`Imu` message the subtraction `new_time - None` inside `update_input_time`
raises, so the callback aborts with the fusion timestamp still unset.  The
initial zero mean, the initial covariance, the prior flag and the control
input are indeed left unchanged, but only because the raise aborts the
callback before any predict or update. -/
theorem C2_first_arrival_raises :
    imu_data_callback cholZero Est.init
        { secs := 100, nsecs := 0, accel := ![1, 2, 3], roll := 0, pitch := 0, yaw := 0 }
      = Except.error
          { Est.init with last_time_secs := some 100, last_time_nsecs := some 0 } ∧
    Est.init.ukf_x = (fun _ => 0) ∧
    Est.init.ukf_P = P0 ∧
    Est.init.last_state_transition_time = none ∧
    Est.init.computed_first_prior = false := by
  refine ⟨?_, rfl, rfl, rfl, rfl⟩
  unfold imu_data_callback
  rw [update_input_time_none Est.init 100 0 rfl]

/-- C3 counterexample: at a concrete state with x-velocity 1 and computed
`dt = -1`, the prediction is NOT rejected: `ukf_predict` returns `ok` and
the stored mean's x-position becomes `-1`, where it was `0` before — the
mean is not retained unchanged, contrary to the claim. -/
theorem C3_counterexample_negative_dt_changes_mean :
    Except.map (fun s2 => s2.ukf_x 0) (ukf_predict cholZero estC3)
      = Except.ok (-1) ∧
    estC3.ukf_x 0 = 0 ∧
    estC3.dt = some (-1) := by
  refine ⟨?_, rfl, rfl⟩
  rw [ukf_predict_some cholZero estC3 (-1) rfl]
  simp only [Except.map, state_transition_eq]
  norm_num [estC3, Est.init]

/-- C3 amended: a negative computed `dt` is not rejected — `ukf_predict`
performs the prediction with that `dt` as given, overwriting the stored
mean with the process model applied to it (so the x-position moves by
`dt ×` x-velocity); the computation is total (no crash). -/
theorem C3_amended_negative_dt_predicts_anyway (chol : Mat12 → Fin 12 → StateVec)
    (s : Est) (d : ℝ) (h : s.dt = some d) (hneg : d < 0) :
    ∃ s2, ukf_predict chol s = Except.ok s2 ∧
      s2.ukf_x = state_transition_function s.ukf_x s.ukf_x d s.last_control_input ∧
      s2.ukf_x 0 = s.ukf_x 0 + d * s.ukf_x 3 := by
  refine ⟨_, ukf_predict_some chol s d h, rfl, ?_⟩
  show state_transition_function s.ukf_x s.ukf_x d s.last_control_input 0
    = s.ukf_x 0 + d * s.ukf_x 3
  rw [state_transition_eq]
  simp

/-- Witness for the C3 amended theorem at the concrete state `estC3`. -/
theorem C3_amended_witness :
    ∃ s2, ukf_predict cholZero estC3 = Except.ok s2 ∧
      s2.ukf_x
        = state_transition_function estC3.ukf_x estC3.ukf_x (-1)
            estC3.last_control_input ∧
      s2.ukf_x 0 = estC3.ukf_x 0 + (-1) * estC3.ukf_x 3 :=
  C3_amended_negative_dt_predicts_anyway cholZero estC3 (-1) rfl (by norm_num)

/-- C4: the `computed_first_prior` flag is set (by `ukf_predict`) but never
consulted: a sensor callback behaves identically whether or not a prior
has ever been computed — there is no detection and no rejection of an
update in the "no prior computed" state — and the measurement update is
unconditionally performed (`ok`), with the flag forced to `true` by the
predict step. -/
theorem C4_update_before_predict_not_detected (chol : Mat12 → Fin 12 → StateVec)
    (s : Est) (b : Bool) (msg : RangeMsg) (t : ℝ)
    (h : s.last_state_transition_time = some t) :
    ir_data_callback chol { s with computed_first_prior := b } msg
      = ir_data_callback chol s msg ∧
    ∃ s2, ir_data_callback chol s msg = Except.ok s2 ∧
      s2.computed_first_prior = true := by
  have hb : ({ s with computed_first_prior := b } : Est).last_state_transition_time
      = some t := h
  constructor
  · unfold ir_data_callback
    rw [update_input_time_some _ msg.secs msg.nsecs t h,
      update_input_time_some _ msg.secs msg.nsecs t hb]
    dsimp only
    rw [ukf_predict_some _ _ _ rfl, ukf_predict_some _ _ _ rfl]
  · unfold ir_data_callback
    rw [update_input_time_some _ msg.secs msg.nsecs t h]
    dsimp only
    rw [ukf_predict_some _ _ _ rfl]
    exact ⟨_, rfl, rfl⟩

/-- Witness for C4 at the concrete state `estC3` (which has a recorded
fusion timestamp) with both flag values. -/
theorem C4_update_before_predict_not_detected_witness :
    ir_data_callback cholZero { estC3 with computed_first_prior := true }
        { secs := 11, nsecs := 0, range := 1 }
      = ir_data_callback cholZero estC3 { secs := 11, nsecs := 0, range := 1 } ∧
    ∃ s2, ir_data_callback cholZero estC3 { secs := 11, nsecs := 0, range := 1 }
        = Except.ok s2 ∧ s2.computed_first_prior = true :=
  C4_update_before_predict_not_detected cholZero estC3 true
    { secs := 11, nsecs := 0, range := 1 } 10 rfl

/-- C9: the stored control input starts at zero; an optical-flow arrival
and a range arrival leave it unchanged (their predictions run with the
previously stored value), whether the callback completes or raises; an
inertial arrival (past the first reading) replaces it with the message's
linear acceleration. -/
theorem C9_control_input_only_replaced_by_imu (chol : Mat12 → Fin 12 → StateVec)
    (s : Est) (fm : FlowMsg) (rm : RangeMsg) (im : ImuMsg) (t : ℝ)
    (h : s.last_state_transition_time = some t) :
    Est.init.last_control_input = (fun _ => 0) ∧
    (runState (optical_flow_data_callback chol s fm)).last_control_input
      = s.last_control_input ∧
    (runState (ir_data_callback chol s rm)).last_control_input
      = s.last_control_input ∧
    (runState (imu_data_callback chol s im)).last_control_input = im.accel := by
  refine ⟨rfl, ?_, ?_, ?_⟩
  · unfold optical_flow_data_callback
    rw [update_input_time_some _ fm.secs fm.nsecs t h]
    dsimp only
    rw [ukf_predict_some _ _ _ rfl]
    rfl
  · unfold ir_data_callback
    rw [update_input_time_some _ rm.secs rm.nsecs t h]
    dsimp only
    rw [ukf_predict_some _ _ _ rfl]
    rfl
  · unfold imu_data_callback
    rw [update_input_time_some _ im.secs im.nsecs t h]
    dsimp only
    have hp : ({ s with
        last_time_secs := some im.secs
        last_time_nsecs := some im.nsecs
        dt := some (im.secs + im.nsecs * 1e-9 - t)
        last_state_transition_time := some (im.secs + im.nsecs * 1e-9)
        last_control_input := im.accel } : Est).dt
        = some (im.secs + im.nsecs * 1e-9 - t) := rfl
    rw [ukf_predict_some _ _ _ hp]
    rfl

/-- Witness for C9 at the concrete state `estC3`. -/
theorem C9_control_input_only_replaced_by_imu_witness :
    Est.init.last_control_input = (fun _ => 0) ∧
    (runState (optical_flow_data_callback cholZero estC3
        { secs := 11, nsecs := 0, x_velocity := 1, y_velocity := 2, yaw_velocity := 3 })).last_control_input
      = estC3.last_control_input ∧
    (runState (ir_data_callback cholZero estC3
        { secs := 11, nsecs := 0, range := 1 })).last_control_input
      = estC3.last_control_input ∧
    (runState (imu_data_callback cholZero estC3
        { secs := 11, nsecs := 0, accel := ![4, 5, 6], roll := 0, pitch := 0, yaw := 0 })).last_control_input
      = ![4, 5, 6] :=
  C9_control_input_only_replaced_by_imu cholZero estC3
    { secs := 11, nsecs := 0, x_velocity := 1, y_velocity := 2, yaw_velocity := 3 }
    { secs := 11, nsecs := 0, range := 1 }
    { secs := 11, nsecs := 0, accel := ![4, 5, 6], roll := 0, pitch := 0, yaw := 0 }
    10 rfl

/-- C10 counterexample: on the first-ever arrival (a range reading at
`t = 5 s` on the freshly initialized estimator) the callback raises and
the fusion timestamp is NOT updated to the arrival's timestamp — it stays
`None` — contrary to the claim's "(or after the first-reading case)". -/
theorem C10_counterexample_first_arrival_timestamp_lost :
    ir_data_callback cholZero Est.init { secs := 5, nsecs := 0, range := 1 }
      = Except.error
          { Est.init with last_time_secs := some 5, last_time_nsecs := some 0 } ∧
    ({ Est.init with last_time_secs := some 5, last_time_nsecs := some 0 } : Est).last_state_transition_time
      = none := by
  refine ⟨?_, rfl⟩
  unfold ir_data_callback
  rw [update_input_time_none Est.init 5 0 rfl]

/-- C10 amended: the fusion timestamp is advanced by `update_input_time`
at the START of processing each arrival — before the predict and correct
steps touch the mean or covariance, and hence regardless of their
outcome — and on the first-ever arrival the dt computation raises before
the timestamp is recorded, so it is not updated then. -/
theorem C10_amended_timestamp_set_before_predict (s s0 : Est) (secs nsecs t : ℝ)
    (h : s.last_state_transition_time = some t)
    (h0 : s0.last_state_transition_time = none) :
    (∃ s1, update_input_time s secs nsecs = Except.ok s1 ∧
       s1.last_state_transition_time = some (secs + nsecs * 1e-9) ∧
       s1.ukf_x = s.ukf_x ∧ s1.ukf_P = s.ukf_P ∧
       s1.computed_first_prior = s.computed_first_prior) ∧
    (∃ s1, update_input_time s0 secs nsecs = Except.error s1 ∧
       s1.last_state_transition_time = none ∧ s1.ukf_x = s0.ukf_x) := by
  refine ⟨⟨_, update_input_time_some s secs nsecs t h, rfl, rfl, rfl, rfl⟩,
    ⟨_, update_input_time_none s0 secs nsecs h0, ?_, rfl⟩⟩
  show s0.last_state_transition_time = none
  exact h0

/-- Witness for the C10 amended theorem at the concrete states `estC3`
(which has a fusion timestamp) and `Est.init` (which has none). -/
theorem C10_amended_witness :
    (∃ s1, update_input_time estC3 5 0 = Except.ok s1 ∧
       s1.last_state_transition_time = some ((5 : ℝ) + 0 * 1e-9) ∧
       s1.ukf_x = estC3.ukf_x ∧ s1.ukf_P = estC3.ukf_P ∧
       s1.computed_first_prior = estC3.computed_first_prior) ∧
    (∃ s1, update_input_time Est.init 5 0 = Except.error s1 ∧
       s1.last_state_transition_time = none ∧ s1.ukf_x = Est.init.ukf_x) :=
  C10_amended_timestamp_set_before_predict estC3 Est.init 5 0 10 rfl rfl

end PiDrone
